import Mathlib

/-!
Shallow embedding of the cart-to-order core of the Apple storefront backend
(`orders/models.py`, `orders/views.py`, pricing attributes from
`products/models.py`, address ownership from `users/models.py`).

Monetary values (Django `DecimalField`) are embedded as exact rationals `ℚ`;
decimal addition and multiplication on such values are exact, so `ℚ` models
them faithfully.  Database rows are lists of records; `id` columns are `Nat`.
`quantity` columns (`PositiveIntegerField`) are embedded as `Int` so that the
validation layer's treatment of negative and zero requests is visible.
-/

namespace Apple

/-- `products.models.Product` — the fields read by the cart/order core:
`name`, `sku`, `price`, `sale_price` (nullable decimal). -/
structure Product where
  id : Nat
  name : String
  sku : String
  price : ℚ
  sale_price : Option ℚ
deriving DecidableEq

/-- `products.models.ProductVariant` — fields read by the core:
`product` (FK), `name`, `price_adjustment`. -/
structure ProductVariant where
  id : Nat
  productId : Nat
  name : String
  price_adjustment : ℚ
deriving DecidableEq

/-- `users.models.Address` — the order endpoint only checks `id` and the
owning `user`. -/
structure Address where
  id : Nat
  userId : Nat
deriving DecidableEq

/-- `orders.models.CartItem` — `cart` is implicit (a `Store` holds the acting
user's cart rows), `variant` is a nullable FK. -/
structure CartItem where
  id : Nat
  productId : Nat
  variantId : Option Nat
  quantity : Int
deriving DecidableEq

/-- `orders.models.Order.STATUS_CHOICES`. -/
inductive OrderStatus
  | pending
  | processing
  | shipped
  | delivered
  | cancelled
  | refunded
deriving DecidableEq

/-- `orders.models.Order` — the fields the order endpoints read or write. -/
structure Order where
  id : Nat
  userId : Nat
  shippingAddressId : Nat
  billingAddressId : Nat
  total_price : ℚ
  shipping_price : ℚ
  tax_amount : ℚ
  status : OrderStatus
deriving DecidableEq

/-- `orders.models.OrderItem` — the immutable snapshot row created by
`OrderViewSet.create` (views.py lines 211-222). -/
structure OrderItem where
  orderId : Nat
  productId : Option Nat
  product_name : String
  product_variant : Option String
  product_sku : String
  quantity : Int
  unit_price : ℚ
  subtotal : ℚ
deriving DecidableEq

/-- The relational state visible to the cart/order endpoints of one acting
user: the catalog tables, the user's address rows, the user's `Cart` row
(`hasCart`) and its `CartItem` rows, and the `Order`/`OrderItem` tables
(these two span all users, as `OrderViewSet.cancel` filters by user). -/
structure Store where
  products : List Product
  variants : List ProductVariant
  addresses : List Address
  hasCart : Bool
  cartItems : List CartItem
  orders : List Order
  orderItems : List OrderItem
deriving DecidableEq

/-- `CartItem.unit_price` base (models.py line 58):
`self.product.sale_price if self.product.sale_price else self.product.price`.
Python truthiness makes both `None` and `Decimal(0)` fall back to `price`. -/
def basePrice (p : Product) : ℚ :=
  match p.sale_price with
  | some s => if s = 0 then p.price else s
  | none => p.price

/-- `CartItem.unit_price` (models.py lines 55-61): base price plus the
variant's `price_adjustment` when a variant is attached. -/
def unit_price (p : Product) (v : Option ProductVariant) : ℚ :=
  match v with
  | some vr => basePrice p + vr.price_adjustment
  | none => basePrice p

/-- `CartItem.subtotal` (models.py lines 63-66): `unit_price * quantity`. -/
def subtotal (p : Product) (v : Option ProductVariant) (q : Int) : ℚ :=
  unit_price p v * (q : ℚ)

/-- The specification's own pricing rule, stated for comparison with the
implementation: "unit price = (product.sale_price if present and non-null,
else product.price) + (variant.price_adjustment if variant present, else 0)".
Note it keys on presence only, not on the value being non-zero. -/
def unit_price_spec (p : Product) (v : Option ProductVariant) : ℚ :=
  (match p.sale_price with
   | some s => s
   | none => p.price) +
  (match v with
   | some vr => vr.price_adjustment
   | none => 0)

/-- Row lookup `Product.objects.get(id=pid)` restricted to success/failure. -/
def findProduct (st : Store) (pid : Nat) : Option Product :=
  st.products.find? (fun p => p.id == pid)

/-- Dereference of the nullable FK `cart_item.variant`. -/
def resolveVariant (st : Store) (it : CartItem) : Option ProductVariant :=
  match it.variantId with
  | none => none
  | some vid => st.variants.find? (fun v => v.id == vid)

/-- Placeholder product for a dangling FK; unreachable under referential
integrity, which theorems assume via explicit `findProduct` hypotheses. -/
def defaultProduct : Product :=
  { id := 0, name := "", sku := "", price := 0, sale_price := none }

/-- Dereference of the FK `cart_item.product`. -/
def itemProduct (st : Store) (it : CartItem) : Product :=
  (findProduct st it.productId).getD defaultProduct

/-- `cart_item.unit_price` evaluated against the store. -/
def itemUnitPrice (st : Store) (it : CartItem) : ℚ :=
  unit_price (itemProduct st it) (resolveVariant st it)

/-- `cart_item.subtotal` evaluated against the store. -/
def itemSubtotal (st : Store) (it : CartItem) : ℚ :=
  itemUnitPrice st it * (it.quantity : ℚ)

/-- `Cart.total_price` (models.py lines 26-29):
`sum(item.subtotal for item in self.items.all())`. -/
def cartTotal (st : Store) : ℚ :=
  (st.cartItems.map (itemSubtotal st)).sum

/-- Outcome of a cart mutation endpoint (views.py `CartViewSet`). -/
inductive CartResult
  | ok
  | validationError
  | notFound
deriving DecidableEq

/-- `get_or_create` key used by `add_item` (views.py lines 75-80): the row is
matched by the `(product, variant)` pair within the cart. -/
def matchesPair (it : CartItem) (pid : Nat) (vid : Option Nat) : Bool :=
  it.productId == pid && it.variantId == vid

/-- The `cart_item.quantity += quantity; cart_item.save()` branch of
`add_item` (views.py lines 83-85), applied to the row `get_or_create`
found: the first row matching the pair. -/
def bump (l : List CartItem) (pid : Nat) (vid : Option Nat) (q : Int) :
    List CartItem :=
  match l with
  | [] => []
  | it :: rest =>
    if matchesPair it pid vid then
      { it with quantity := it.quantity + q } :: rest
    else
      it :: bump rest pid vid q

/-- Variant resolution of `add_item` (views.py lines 70-72):
`get_object_or_404(ProductVariant, id=variant_id, product=product)` when a
variant id is supplied. -/
def variantOk (st : Store) (pid : Nat) (vid : Option Nat) : Bool :=
  match vid with
  | none => true
  | some v => (st.variants.find? (fun vr => vr.id == v && vr.productId == pid)).isSome

/-- `CartViewSet.add_item` (views.py lines 55-89).  The serializer maps the
model's `PositiveIntegerField` to an integer field with `min_value = 0`, so a
negative `quantity` fails validation (HTTP 400) while `0` passes; then the
product and the product-scoped variant are resolved (HTTP 404 on failure);
finally `get_or_create` on the `(cart, product, variant)` key either
increments the existing row's quantity or inserts a fresh row with the
requested quantity.  `nextId` is the autoincrement pk the insert would use. -/
def add_item (st : Store) (pid : Nat) (vid : Option Nat) (q : Int)
    (nextId : Nat) : CartResult × Store :=
  if q < 0 then (.validationError, st)
  else if (findProduct st pid).isNone then (.notFound, st)
  else if variantOk st pid vid = false then (.notFound, st)
  else
    match st.cartItems.find? (fun it => matchesPair it pid vid) with
    | some _ => (.ok, { st with cartItems := bump st.cartItems pid vid q })
    | none =>
        (.ok, { st with cartItems :=
          st.cartItems ++ [{ id := nextId, productId := pid,
                             variantId := vid, quantity := q }] })

/-- Outcome of `CartViewSet.update_item`. -/
inductive UpdateResult
  | ok (items : List CartItem)
  | badRequest
  | notFound
deriving DecidableEq

/-- `CartViewSet.update_item` (views.py lines 91-119): a missing `item_id` is
a 400; a pk miss within the caller's cart is a 404; a found row is deleted
when the requested quantity is `≤ 0` and overwritten otherwise. -/
def update_item (items : List CartItem) (itemId : Option Nat) (q : Int) :
    UpdateResult :=
  match itemId with
  | none => .badRequest
  | some iid =>
    match items.find? (fun it => it.id == iid) with
    | none => .notFound
    | some _ =>
      if q ≤ 0 then .ok (items.filter (fun it => it.id != iid))
      else .ok (items.map (fun it =>
        if it.id == iid then { it with quantity := q } else it))

/-- Exact rational value of the IEEE-754 binary64 literal `0.05` appearing as
`tax_rate = 0.05` in views.py line 195.  The literal is a binary float, not
the decimal 1/20: its value is 0.05000000000000000277555756156289135105907917022705078125.
(CPython additionally refuses to multiply a `Decimal` cart total by a `float`
at all, raising `TypeError`, so the source line cannot produce a `Decimal`
five-percent tax.) -/
def tax_rate : ℚ := 3602879701896397 / 2 ^ 56

/-- Outcome of `OrderViewSet.create`. -/
inductive CreateOutcome
  | created (o : Order)
  | emptyCart
  | addressNotFound
deriving DecidableEq

/-- Next autoincrement pk for the `Order` table. -/
def freshOrderId (orders : List Order) : Nat :=
  (orders.map (fun o => o.id)).foldr max 0 + 1

/-- The `Order.objects.create` call of views.py lines 192-209 with the totals
computed just above it: `shipping_price = 0`,
`tax_amount = cart_total * tax_rate`,
`order_total = cart_total + shipping_price + tax_amount`. -/
def mkOrder (st : Store) (uid shipId billId : Nat) : Order :=
  { id := freshOrderId st.orders
    userId := uid
    shippingAddressId := shipId
    billingAddressId := billId
    total_price := cartTotal st + 0 + cartTotal st * tax_rate
    shipping_price := 0
    tax_amount := cartTotal st * tax_rate
    status := .pending }

/-- One `OrderItem.objects.create` call of views.py lines 212-222: the row
copies the product's current name and SKU, the variant's current name, and
the current unit price; `subtotal` is recomputed as `unit_price * quantity`
by `OrderItem.save` (models.py lines 137-140). -/
def snapshotItem (st : Store) (oid : Nat) (it : CartItem) : OrderItem :=
  { orderId := oid
    productId := some it.productId
    product_name := (itemProduct st it).name
    product_variant := (resolveVariant st it).map (fun vr => vr.name)
    product_sku := (itemProduct st it).sku
    quantity := it.quantity
    unit_price := itemUnitPrice st it
    subtotal := itemUnitPrice st it * (it.quantity : ℚ) }

/-- `OrderViewSet.create` (views.py lines 160-232): reject when the `Cart`
row is missing or holds no items ("Your cart is empty"); resolve both
addresses scoped to the acting user (404 on miss); then insert the order,
snapshot every cart row into an `OrderItem` in cart order, and delete all
the cart's items. -/
def createOrder (st : Store) (uid shipId billId : Nat) :
    CreateOutcome × Store :=
  if st.hasCart = false then (.emptyCart, st)
  else if st.cartItems.length = 0 then (.emptyCart, st)
  else if (st.addresses.find? (fun a => a.id == shipId && a.userId == uid)).isNone
    then (.addressNotFound, st)
  else if (st.addresses.find? (fun a => a.id == billId && a.userId == uid)).isNone
    then (.addressNotFound, st)
  else
    (.created (mkOrder st uid shipId billId),
     { st with
       orders := st.orders ++ [mkOrder st uid shipId billId]
       orderItems := st.orderItems ++
         st.cartItems.map (snapshotItem st (freshOrderId st.orders))
       cartItems := [] })

/-- A later catalog edit: `Product.save()` on an existing row replaces that
row and touches nothing else. -/
def updateProduct (st : Store) (p : Product) : Store :=
  { st with products := st.products.map (fun q => if q.id == p.id then p else q) }

/-- A later catalog edit: `ProductVariant.save()` on an existing row. -/
def updateVariant (st : Store) (v : ProductVariant) : Store :=
  { st with variants := st.variants.map (fun w => if w.id == v.id then v else w) }

/-- Outcome of `OrderViewSet.cancel`. -/
inductive CancelOutcome
  | ok
  | notFound
  | invalidTransition
deriving DecidableEq

/-- `OrderViewSet.cancel` (views.py lines 234-252): `get_object` resolves the
pk inside the user-scoped queryset `Order.objects.filter(user=request.user)`
(404 on miss); a status outside {pending, processing} is rejected with
"This order cannot be cancelled"; otherwise the order is saved with status
`cancelled`. -/
def cancelOrder (st : Store) (uid oid : Nat) : CancelOutcome × Store :=
  match st.orders.find? (fun o => o.id == oid && o.userId == uid) with
  | none => (.notFound, st)
  | some o =>
    if o.status = .pending ∨ o.status = .processing then
      (.ok, { st with orders := st.orders.map (fun p =>
        if p.id == oid then { p with status := .cancelled } else p) })
    else (.invalidTransition, st)

/-- Variant `price_adjustment` contribution used to phrase pricing facts. -/
def adjustment : Option ProductVariant → ℚ
  | some vr => vr.price_adjustment
  | none => 0

/-- Concrete store realising the specification's worked scenario: product
"Phone X" priced 999.00 with no sale price, variant "256GB" with adjustment
+100.00, one cart row of quantity 2 (unit price 1099.00), two addresses of
user 7. -/
def demoStore : Store :=
  { products := [{ id := 1, name := "Phone X", sku := "PHX-1",
                   price := 999, sale_price := none }]
    variants := [{ id := 1, productId := 1, name := "256GB",
                   price_adjustment := 100 }]
    addresses := [{ id := 1, userId := 7 }, { id := 2, userId := 7 }]
    hasCart := true
    cartItems := [{ id := 1, productId := 1, variantId := some 1, quantity := 2 }]
    orders := []
    orderItems := [] }

/-- A store whose cart row exists but holds no items. -/
def emptyCartStore : Store :=
  { products := []
    variants := []
    addresses := [{ id := 1, userId := 4 }]
    hasCart := true
    cartItems := []
    orders := []
    orderItems := [] }

/-- A store with one catalog product and an empty cart, used to exercise the
`add_item` validation layer. -/
def gadgetStore : Store :=
  { products := [{ id := 1, name := "Gadget", sku := "GDT-1",
                   price := 10, sale_price := none }]
    variants := []
    addresses := []
    hasCart := true
    cartItems := []
    orders := []
    orderItems := [] }

/-- A product whose sale price is the decimal zero: present and non-null. -/
def zeroSaleProduct : Product :=
  { id := 9, name := "Clearance", sku := "CLR-9", price := 100, sale_price := some 0 }

/-- A product with a non-zero sale price, used to witness the sale branch. -/
def saleProduct : Product :=
  { id := 3, name := "Bundle", sku := "BDL-3", price := 9, sale_price := some 5 }

/-- A pending order of user 3, used to exercise cancellation. -/
def pendingOrder : Order :=
  { id := 1, userId := 3, shippingAddressId := 1, billingAddressId := 1,
    total_price := 21, shipping_price := 0, tax_amount := 1,
    status := .pending }

/-- A store holding `pendingOrder`. -/
def cancelStore : Store :=
  { products := []
    variants := []
    addresses := []
    hasCart := true
    cartItems := []
    orders := [pendingOrder]
    orderItems := [] }

/-- A store holding one shipped order owned by user 8, seen by acting user 3. -/
def foreignOrderStore : Store :=
  { products := []
    variants := []
    addresses := []
    hasCart := true
    cartItems := []
    orders := [{ id := 1, userId := 8, shippingAddressId := 1,
                 billingAddressId := 1, total_price := 21, shipping_price := 0,
                 tax_amount := 1, status := .pending }]
    orderItems := [] }

theorem find?_false_of_all_false {α} {p : α → Bool} {l : List α}
    (h : ∀ a ∈ l, p a = false) : l.find? p = none := by
  induction l with
  | nil => rfl
  | cons a t ih =>
    have ha := h a (List.mem_cons_self a t)
    rw [List.find?_cons, ha]
    exact ih (fun b hb => h b (List.mem_cons_of_mem a hb))

theorem find?_append_singleton {α} {p : α → Bool} {l : List α} {x : α}
    (h : ∀ a ∈ l, p a = false) (hx : p x = true) :
    (l ++ [x]).find? p = some x := by
  induction l with
  | nil => simp [List.find?_cons, hx]
  | cons a t ih =>
    have ha := h a (List.mem_cons_self a t)
    rw [List.cons_append, List.find?_cons, ha]
    exact ih (fun b hb => h b (List.mem_cons_of_mem a hb))

theorem find?_some_of_unique {α} {p : α → Bool} {l : List α} {a : α}
    (ha : a ∈ l) (hp : p a = true) (hu : ∀ b ∈ l, p b = true → b = a) :
    l.find? p = some a := by
  induction l with
  | nil => cases ha
  | cons b t ih =>
    rw [List.find?_cons]
    by_cases hb : p b = true
    · rw [hb]
      exact congrArg some (hu b (List.mem_cons_self b t) hb)
    · rw [Bool.not_eq_true] at hb
      rw [hb]
      rcases List.mem_cons.mp ha with rfl | hat
      · exact absurd hp (by simp [hb])
      · exact ih hat (fun c hc => hu c (List.mem_cons_of_mem b hc))

theorem filter_nil_of_all_false {α} {p : α → Bool} {l : List α}
    (h : ∀ a ∈ l, p a = false) : l.filter p = [] := by
  induction l with
  | nil => rfl
  | cons a t ih =>
    rw [List.filter_cons, h a (List.mem_cons_self a t)]
    exact ih (fun b hb => h b (List.mem_cons_of_mem a hb))

theorem bump_append_singleton {l : List CartItem} {pid : Nat}
    {vid : Option Nat} {x : CartItem} (q : Int)
    (h : ∀ a ∈ l, matchesPair a pid vid = false)
    (hx : matchesPair x pid vid = true) :
    bump (l ++ [x]) pid vid q = l ++ [{ x with quantity := x.quantity + q }] := by
  induction l with
  | nil => simp [bump, hx]
  | cons a t ih =>
    have ha := h a (List.mem_cons_self a t)
    rw [List.cons_append, bump, if_neg (by simp [ha]), List.cons_append]
    exact congrArg (a :: ·) (ih (fun b hb => h b (List.mem_cons_of_mem a hb)))

theorem bump_quantity_nonneg {l : List CartItem} {pid : Nat}
    {vid : Option Nat} {q : Int}
    (h : ∀ a ∈ l, 0 ≤ a.quantity) (hq : 0 ≤ q) :
    ∀ a ∈ bump l pid vid q, 0 ≤ a.quantity := by
  induction l with
  | nil => intro a ha; cases ha
  | cons b t ih =>
    intro a ha
    rw [bump] at ha
    split at ha
    · rcases List.mem_cons.mp ha with rfl | hat
      · exact add_nonneg (h b (List.mem_cons_self b t)) hq
      · exact h a (List.mem_cons_of_mem b hat)
    · rcases List.mem_cons.mp ha with rfl | hat
      · exact h a (List.mem_cons_self a t)
      · exact ih (fun c hc => h c (List.mem_cons_of_mem b hc)) a hat

/-- `add_item` when the `(product, variant)` pair already has a row: the
found row's quantity is incremented. -/
theorem add_item_found {st : Store} {pid : Nat} {vid : Option Nat} {q : Int}
    {nextId : Nat} {x : CartItem}
    (hq : 0 ≤ q)
    (hprod : (findProduct st pid).isNone = false)
    (hvar : variantOk st pid vid = true)
    (hfind : st.cartItems.find? (fun it => matchesPair it pid vid) = some x) :
    add_item st pid vid q nextId =
      (.ok, { st with cartItems := bump st.cartItems pid vid q }) := by
  rw [add_item, if_neg (not_lt.mpr hq), if_neg (by simp [hprod]),
    if_neg (by simp [hvar]), hfind]

/-- `add_item` when the `(product, variant)` pair has no row yet: a fresh
row with the requested quantity is appended. -/
theorem add_item_not_found {st : Store} {pid : Nat} {vid : Option Nat}
    {q : Int} {nextId : Nat}
    (hq : 0 ≤ q)
    (hprod : (findProduct st pid).isNone = false)
    (hvar : variantOk st pid vid = true)
    (hfind : st.cartItems.find? (fun it => matchesPair it pid vid) = none) :
    add_item st pid vid q nextId =
      (.ok, { st with cartItems := st.cartItems ++
        [{ id := nextId, productId := pid, variantId := vid, quantity := q }] }) := by
  rw [add_item, if_neg (not_lt.mpr hq), if_neg (by simp [hprod]),
    if_neg (by simp [hvar]), hfind]

/-- Inversion of a successful `createOrder`: every guard passed and the
result is the literal insert-snapshot-clear transition. -/
theorem createOrder_created_inv {st st' : Store} {uid shipId billId : Nat}
    {o : Order}
    (hc : createOrder st uid shipId billId = (.created o, st')) :
    o = mkOrder st uid shipId billId ∧
    st' = { st with
            orders := st.orders ++ [mkOrder st uid shipId billId]
            orderItems := st.orderItems ++
              st.cartItems.map (snapshotItem st (freshOrderId st.orders))
            cartItems := [] } ∧
    st.hasCart = true ∧ st.cartItems ≠ [] := by
  rw [createOrder] at hc
  split_ifs at hc with h1 h2 h3 h4
  · simp at hc
  · simp at hc
  · simp at hc
  · simp at hc
  · rw [Prod.mk.injEq, CreateOutcome.created.injEq] at hc
    refine ⟨hc.1.symm, hc.2.symm, ?_, ?_⟩
    · simpa using h1
    · exact fun hnil => h2 (by rw [hnil]; rfl)

/-- C1: order creation multiplies the Decimal cart total by the binary
floating-point literal `0.05` (views.py line 195), not by the exact decimal
5%.  At the claim's own input — one cart row of unit price 1099.00 and
quantity 2, cart total 2198.00 — the created order's `tax_amount` is
`2198 * tax_rate`, which differs from the claimed 109.90, its `total_price`
differs from the claimed 2307.90, and the rate itself differs from 5/100.
(Running the source under CPython is even worse: `Decimal * float` raises
`TypeError`, so the request crashes instead of storing an order.) -/
theorem c1_float_tax_breaks_decimal_arithmetic :
    (createOrder demoStore 7 1 2).1 = CreateOutcome.created
      { id := 1, userId := 7, shippingAddressId := 1, billingAddressId := 2,
        total_price := 2198 + 2198 * tax_rate, shipping_price := 0,
        tax_amount := 2198 * tax_rate, status := .pending } ∧
    cartTotal demoStore = 2198 ∧
    2198 * tax_rate ≠ (1099 : ℚ) / 10 ∧
    2198 + 2198 * tax_rate ≠ (23079 : ℚ) / 10 ∧
    tax_rate ≠ 5 / 100 := by
  refine ⟨?_, ?_, ?_, ?_, ?_⟩
  · simp [createOrder, demoStore, mkOrder, freshOrderId, cartTotal, itemSubtotal,
      itemUnitPrice, itemProduct, findProduct, resolveVariant, unit_price,
      basePrice, List.find?]
    norm_num
  · simp [cartTotal, demoStore, itemSubtotal, itemUnitPrice, itemProduct,
      findProduct, resolveVariant, unit_price, basePrice, List.find?]
    norm_num
  · norm_num [tax_rate]
  · norm_num [tax_rate]
  · norm_num [tax_rate]

/-- C2: order creation against a missing cart or a cart with zero items
returns the EmptyCart error ("Your cart is empty") and leaves the store —
in particular the Order and OrderItem tables — unchanged. -/
theorem c2_empty_cart_creates_nothing (st : Store) (uid shipId billId : Nat)
    (h : st.hasCart = false ∨ st.cartItems = []) :
    createOrder st uid shipId billId = (.emptyCart, st) ∧
    (createOrder st uid shipId billId).2.orders = st.orders ∧
    (createOrder st uid shipId billId).2.orderItems = st.orderItems := by
  have hmain : createOrder st uid shipId billId = (.emptyCart, st) := by
    rcases h with h | h
    · simp [createOrder, h]
    · simp [createOrder, h]
  exact ⟨hmain, by rw [hmain], by rw [hmain]⟩

/-- Witness for C2 at a concrete store whose cart exists but is empty. -/
theorem c2_empty_cart_witness :
    createOrder emptyCartStore 4 1 1 = (.emptyCart, emptyCartStore) :=
  (c2_empty_cart_creates_nothing emptyCartStore 4 1 1 (Or.inr rfl)).1

/-- C4: a successful order creation deletes every CartItem of the
originating cart while the Cart row itself persists. -/
theorem c4_cart_drained_cart_row_persists (st st' : Store)
    (uid shipId billId : Nat) (o : Order)
    (hne : st.cartItems ≠ [])
    (hc : createOrder st uid shipId billId = (.created o, st')) :
    st'.cartItems = [] ∧ st'.hasCart = true := by
  obtain ⟨-, hst', hcart, -⟩ := createOrder_created_inv hc
  rw [hst']
  exact ⟨rfl, hcart⟩

/-- Witness for C4: the demo store's cart is drained by order creation. -/
theorem c4_cart_drained_witness :
    (createOrder demoStore 7 1 2).2.cartItems = [] ∧
    (createOrder demoStore 7 1 2).2.hasCart = true :=
  c4_cart_drained_cart_row_persists demoStore (createOrder demoStore 7 1 2).2
    7 1 2 (mkOrder demoStore 7 1 2) (by simp [demoStore]) rfl

/-- C3: every cart row of a successful order creation yields an OrderItem
recording the product's name and SKU, the variant's name, the unit price and
the quantity as they are at creation time, and any later `Product.save` or
`ProductVariant.save` leaves the stored OrderItem rows literally unchanged. -/
theorem c3_order_items_snapshot_catalog (st st' : Store)
    (uid shipId billId : Nat) (o : Order) (it : CartItem) (p : Product)
    (hc : createOrder st uid shipId billId = (.created o, st'))
    (hit : it ∈ st.cartItems)
    (hp : findProduct st it.productId = some p) :
    ∃ oi ∈ st'.orderItems,
      oi.product_name = p.name ∧
      oi.product_sku = p.sku ∧
      oi.product_variant = (resolveVariant st it).map (fun vr => vr.name) ∧
      oi.unit_price = unit_price p (resolveVariant st it) ∧
      oi.quantity = it.quantity ∧
      (∀ p', (updateProduct st' p').orderItems = st'.orderItems) ∧
      (∀ v', (updateVariant st' v').orderItems = st'.orderItems) := by
  obtain ⟨-, hst', -, -⟩ := createOrder_created_inv hc
  subst hst'
  refine ⟨snapshotItem st (freshOrderId st.orders) it, ?_, ?_, ?_, rfl, ?_, rfl,
    fun p' => rfl, fun v' => rfl⟩
  · exact List.mem_append_right _ (List.mem_map_of_mem _ hit)
  · show (itemProduct st it).name = p.name
    rw [itemProduct, hp, Option.getD_some]
  · show (itemProduct st it).sku = p.sku
    rw [itemProduct, hp, Option.getD_some]
  · show itemUnitPrice st it = unit_price p (resolveVariant st it)
    rw [itemUnitPrice, itemProduct, hp, Option.getD_some]

/-- Witness for C3 at the demo store: the snapshot row records "Phone X",
its SKU, the variant name "256GB", the 1099.00 unit price and quantity 2,
and catalog edits do not touch the OrderItem table. -/
theorem c3_snapshot_witness :
    ∃ oi ∈ (createOrder demoStore 7 1 2).2.orderItems,
      oi.product_name = ({ id := 1, name := "Phone X", sku := "PHX-1",
                           price := 999, sale_price := none } : Product).name ∧
      oi.product_sku = ({ id := 1, name := "Phone X", sku := "PHX-1",
                          price := 999, sale_price := none } : Product).sku ∧
      oi.product_variant =
        (resolveVariant demoStore
          { id := 1, productId := 1, variantId := some 1, quantity := 2 }).map
          (fun vr => vr.name) ∧
      oi.unit_price =
        unit_price { id := 1, name := "Phone X", sku := "PHX-1",
                     price := 999, sale_price := none }
          (resolveVariant demoStore
            { id := 1, productId := 1, variantId := some 1, quantity := 2 }) ∧
      oi.quantity =
        ({ id := 1, productId := 1, variantId := some 1, quantity := 2 } :
          CartItem).quantity ∧
      (∀ p', (updateProduct (createOrder demoStore 7 1 2).2 p').orderItems =
        (createOrder demoStore 7 1 2).2.orderItems) ∧
      (∀ v', (updateVariant (createOrder demoStore 7 1 2).2 v').orderItems =
        (createOrder demoStore 7 1 2).2.orderItems) :=
  c3_order_items_snapshot_catalog demoStore (createOrder demoStore 7 1 2).2
    7 1 2 (mkOrder demoStore 7 1 2)
    { id := 1, productId := 1, variantId := some 1, quantity := 2 }
    { id := 1, name := "Phone X", sku := "PHX-1", price := 999, sale_price := none }
    rfl (by simp [demoStore]) rfl

/-- C10: when the acting user owns no order with the requested id, the
cancel endpoint's user-scoped queryset lookup misses, the request fails with
NotFound, and the whole store — in particular the foreign order's status —
is unchanged. -/
theorem c10_cancel_foreign_order_not_found (st : Store) (uid oid : Nat)
    (h : ∀ o ∈ st.orders, o.id = oid → o.userId ≠ uid) :
    cancelOrder st uid oid = (.notFound, st) := by
  rw [cancelOrder, find?_false_of_all_false]
  intro o ho
  by_cases hid : o.id = oid
  · have := h o ho hid
    simp [hid, this]
  · simp [hid]

/-- Witness for C10: user 3 cannot cancel user 8's order. -/
theorem c10_foreign_order_witness :
    cancelOrder foreignOrderStore 3 1 = (.notFound, foreignOrderStore) :=
  c10_cancel_foreign_order_not_found foreignOrderStore 3 1
    (by intro o ho hid; simp [foreignOrderStore] at ho; simp [ho])

/-- C6 counterexample: a sale price of decimal zero is present and non-null,
so the claim demands unit price 0, but the implementation's Python-truthiness
test `if self.product.sale_price` treats `Decimal(0)` as unset and charges
the base price 100 instead. -/
theorem c6_zero_sale_price_counterexample :
    unit_price zeroSaleProduct none = 100 ∧
    unit_price_spec zeroSaleProduct none = 0 ∧
    unit_price zeroSaleProduct none ≠ unit_price_spec zeroSaleProduct none := by
  refine ⟨?_, ?_, ?_⟩ <;> norm_num [unit_price, unit_price_spec, basePrice, zeroSaleProduct]

/-- C6 amended: the unit price is (sale_price if present, non-null and
non-zero, else price) plus the variant adjustment — a sale price equal to
the decimal zero falls back to the base price — and the subtotal is the unit
price times the quantity. -/
theorem c6_truthy_sale_price_pricing (p : Product) (v : Option ProductVariant)
    (q : Int) :
    (p.sale_price = none → unit_price p v = p.price + adjustment v) ∧
    (∀ s, p.sale_price = some s → s ≠ 0 → unit_price p v = s + adjustment v) ∧
    (p.sale_price = some 0 → unit_price p v = p.price + adjustment v) ∧
    subtotal p v q = unit_price p v * (q : ℚ) := by
  refine ⟨?_, ?_, ?_, rfl⟩
  · intro h
    cases v <;> simp [unit_price, basePrice, adjustment, h]
  · intro s h hs
    cases v <;> simp [unit_price, basePrice, adjustment, h, hs]
  · intro h
    cases v <;> simp [unit_price, basePrice, adjustment, h]

/-- Witness for the amended C6: a product priced 9 with sale price 5 and no
variant is charged 5. -/
theorem c6_sale_branch_witness :
    unit_price saleProduct none = 5 + adjustment none :=
  (c6_truthy_sale_price_pricing saleProduct none 1).2.1 5 rfl (by norm_num)

/-- C5: adding a (product, variant) pair that is not yet in the cart with
quantity q1 and then again with quantity q2 leaves exactly one CartItem for
that pair, holding quantity q1 + q2 — `get_or_create` keyed on the pair
inserts once and the second request increments the found row. -/
theorem c5_merge_on_add (st : Store) (pid : Nat) (vid : Option Nat)
    (q1 q2 : Int) (n1 n2 : Nat)
    (hq1 : 0 ≤ q1) (hq2 : 0 ≤ q2)
    (hprod : (findProduct st pid).isNone = false)
    (hvar : variantOk st pid vid = true)
    (habsent : ∀ it ∈ st.cartItems, matchesPair it pid vid = false) :
    ∃ st1 st2,
      add_item st pid vid q1 n1 = (.ok, st1) ∧
      add_item st1 pid vid q2 n2 = (.ok, st2) ∧
      (st2.cartItems.filter (fun it => matchesPair it pid vid)).map
        (fun it => it.quantity) = [q1 + q2] := by
  have hx : matchesPair ⟨n1, pid, vid, q1⟩ pid vid = true := by
    simp [matchesPair]
  refine ⟨{ st with cartItems := st.cartItems ++ [⟨n1, pid, vid, q1⟩] },
    { st with cartItems := st.cartItems ++ [⟨n1, pid, vid, q1 + q2⟩] },
    ?_, ?_, ?_⟩
  · exact add_item_not_found hq1 hprod hvar (find?_false_of_all_false habsent)
  · have h2 := @add_item_found
      { st with cartItems := st.cartItems ++ [⟨n1, pid, vid, q1⟩] }
      pid vid q2 n2 ⟨n1, pid, vid, q1⟩ hq2 hprod hvar
      (find?_append_singleton habsent hx)
    rw [h2]
    have hb := bump_append_singleton (l := st.cartItems)
      (x := (⟨n1, pid, vid, q1⟩ : CartItem)) q2 habsent hx
    dsimp only
    rw [hb]
  · dsimp only
    rw [List.filter_append, filter_nil_of_all_false habsent]
    simp [matchesPair]

/-- Witness for C5: adding 2 then 3 of product 1 (no variant) to the empty
cart of `gadgetStore` yields one row of quantity 5. -/
theorem c5_merge_witness :
    ∃ st1 st2,
      add_item gadgetStore 1 none 2 1 = (.ok, st1) ∧
      add_item st1 1 none 3 2 = (.ok, st2) ∧
      (st2.cartItems.filter (fun it => matchesPair it 1 none)).map
        (fun it => it.quantity) = [2 + 3] :=
  c5_merge_on_add gadgetStore 1 none 2 3 1 2 (by norm_num) (by norm_num)
    rfl rfl (by intro it h; simp [gadgetStore] at h)

/-- C7: cancellation succeeds exactly on orders whose status is pending or
processing, rewriting only the status to cancelled; on any of the four other
statuses it fails with InvalidTransition and the store — the order included —
is untouched. -/
theorem c7_cancellation_guard (st : Store) (uid oid : Nat) (o : Order)
    (hmem : o ∈ st.orders) (hid : o.id = oid) (huser : o.userId = uid)
    (huniq : ∀ p ∈ st.orders, p.id = oid → p = o) :
    ((o.status = .pending ∨ o.status = .processing) →
      (cancelOrder st uid oid).1 = .ok ∧
      ∀ p ∈ (cancelOrder st uid oid).2.orders,
        (p.id = oid → p = { o with status := .cancelled }) ∧
        (p.id ≠ oid → p ∈ st.orders)) ∧
    ((o.status = .shipped ∨ o.status = .delivered ∨ o.status = .cancelled ∨
        o.status = .refunded) →
      cancelOrder st uid oid = (.invalidTransition, st)) := by
  have hfind : st.orders.find? (fun x => x.id == oid && x.userId == uid) =
      some o := by
    refine find?_some_of_unique hmem (by simp [hid, huser]) ?_
    intro b hb hbp
    simp only [Bool.and_eq_true, beq_iff_eq] at hbp
    exact huniq b hb hbp.1
  have hcancel : cancelOrder st uid oid =
      if o.status = .pending ∨ o.status = .processing then
        (.ok, { st with orders := st.orders.map (fun p =>
          if p.id == oid then { p with status := .cancelled } else p) })
      else (.invalidTransition, st) := by
    rw [cancelOrder, hfind]
  constructor
  · intro hstat
    rw [hcancel, if_pos hstat]
    refine ⟨rfl, ?_⟩
    intro p hp
    replace hp : p ∈ st.orders.map (fun x =>
        if x.id == oid then { x with status := OrderStatus.cancelled } else x) := hp
    obtain ⟨x, hx, rfl⟩ := List.mem_map.mp hp
    by_cases hxid : x.id = oid
    · have hxo : x = o := huniq x hx hxid
      subst hxo
      rw [if_pos (by simp [hxid])]
      exact ⟨fun _ => rfl, fun hne => absurd hxid hne⟩
    · rw [if_neg (by simp [hxid])]
      exact ⟨fun hcontra => absurd hcontra hxid, fun _ => hx⟩
  · intro hstat
    have hne : ¬(o.status = .pending ∨ o.status = .processing) := by
      rcases hstat with h | h | h | h <;> rw [h] <;> decide
    rw [hcancel, if_neg hne]

/-- Witness for C7: the pending order of `cancelStore` is cancellable. -/
theorem c7_cancel_pending_witness :
    (cancelOrder cancelStore 3 1).1 = .ok :=
  ((c7_cancellation_guard cancelStore 3 1 pendingOrder
      (by simp [cancelStore]) rfl rfl
      (by intro p hp h; simpa [cancelStore] using hp)).1 (Or.inl rfl)).1

/-- C8 counterexample: an add-item request with quantity 0 — a non-positive
quantity — passes the serializer (the model's `PositiveIntegerField` maps to
`min_value = 0`), succeeds, and inserts a CartItem row of quantity 0. -/
theorem c8_zero_quantity_row_counterexample :
    add_item gadgetStore 1 none 0 1 =
      (.ok, { gadgetStore with cartItems :=
        [{ id := 1, productId := 1, variantId := none, quantity := 0 }] }) ∧
    (add_item gadgetStore 1 none 0 1).1 ≠ .validationError ∧
    ∃ it ∈ (add_item gadgetStore 1 none 0 1).2.cartItems, it.quantity = 0 := by
  refine ⟨rfl, ?_, ?_⟩
  · intro h
    exact CartResult.noConfusion h
  · exact ⟨{ id := 1, productId := 1, variantId := none, quantity := 0 },
      List.mem_singleton.mpr rfl, rfl⟩

/-- C8 amended: a request to add an item with a negative quantity is rejected
with ValidationError and changes nothing; a quantity of 0 is accepted, so the
invariant the cart operations maintain is quantity ≥ 0 (not ≥ 1): whenever
every existing CartItem has a nonnegative quantity, every CartItem after
`add_item` still does. -/
theorem c8_negative_rejected_nonneg_preserved (st : Store) (pid : Nat)
    (vid : Option Nat) (q : Int) (nextId : Nat)
    (hinv : ∀ it ∈ st.cartItems, 0 ≤ it.quantity) :
    (q < 0 → add_item st pid vid q nextId = (.validationError, st)) ∧
    (0 ≤ q → ∀ it ∈ (add_item st pid vid q nextId).2.cartItems,
      0 ≤ it.quantity) := by
  constructor
  · intro hq
    rw [add_item, if_pos hq]
  · intro hq it hit
    rw [add_item, if_neg (not_lt.mpr hq)] at hit
    split at hit
    · exact hinv it hit
    · split at hit
      · exact hinv it hit
      · split at hit
        · exact bump_quantity_nonneg hinv hq it hit
        · rcases List.mem_append.mp hit with hmem | hmem
          · exact hinv it hmem
          · rw [List.mem_singleton.mp hmem]
            exact hq

/-- Witness for the amended C8: adding quantity -1 is rejected. -/
theorem c8_negative_quantity_witness :
    add_item gadgetStore 1 none (-1) 1 = (.validationError, gadgetStore) :=
  (c8_negative_rejected_nonneg_preserved gadgetStore 1 none (-1) 1
      (by intro it h; simp [gadgetStore] at h)).1 (by norm_num)

/-- C9: `update_item` answers NotFound when the caller's cart has no row
with the requested id; when the row exists, a quantity ≤ 0 deletes it (a
success that keeps every other row), and a positive quantity overwrites the
row's quantity while keeping every other row and the cart's size. -/
theorem c9_update_item_semantics (items : List CartItem) (iid : Nat)
    (q : Int) :
    ((∀ it ∈ items, it.id ≠ iid) →
      update_item items (some iid) q = .notFound) ∧
    (∀ it0 ∈ items, it0.id = iid → q ≤ 0 →
      ∃ items', update_item items (some iid) q = .ok items' ∧
        (∀ it ∈ items', it.id ≠ iid) ∧
        (∀ it ∈ items, it.id ≠ iid → it ∈ items')) ∧
    (∀ it0 ∈ items, it0.id = iid → 0 < q →
      ∃ items', update_item items (some iid) q = .ok items' ∧
        (∃ it ∈ items', it.id = iid ∧ it.quantity = q) ∧
        (∀ it ∈ items, it.id ≠ iid → it ∈ items') ∧
        items'.length = items.length) := by
  refine ⟨?_, ?_, ?_⟩
  · intro h
    rw [update_item, find?_false_of_all_false
      (fun a ha => by simpa using h a ha)]
  · intro it0 hit0 hid0 hq
    have hfind : items.find? (fun it => it.id == iid) ≠ none := by
      intro hnone
      exact absurd (by simpa using hid0)
        (List.find?_eq_none.mp hnone it0 hit0)
    obtain ⟨a, ha⟩ := Option.ne_none_iff_exists'.mp hfind
    refine ⟨items.filter (fun it => it.id != iid), ?_, ?_, ?_⟩
    · rw [update_item, ha, if_pos hq]
    · intro it hit
      have := (List.mem_filter.mp hit).2
      simpa using this
    · intro it hit hne
      exact List.mem_filter.mpr ⟨hit, by simpa using hne⟩
  · intro it0 hit0 hid0 hq
    have hfind : items.find? (fun it => it.id == iid) ≠ none := by
      intro hnone
      exact absurd (by simpa using hid0)
        (List.find?_eq_none.mp hnone it0 hit0)
    obtain ⟨a, ha⟩ := Option.ne_none_iff_exists'.mp hfind
    refine ⟨items.map (fun it =>
        if it.id == iid then { it with quantity := q } else it),
      ?_, ?_, ?_, List.length_map _ _⟩
    · rw [update_item, ha, if_neg (not_le.mpr hq)]
    · refine ⟨{ it0 with quantity := q }, ?_, hid0, rfl⟩
      refine List.mem_map.mpr ⟨it0, hit0, ?_⟩
      simp [hid0]
    · intro it hit hne
      refine List.mem_map.mpr ⟨it, hit, ?_⟩
      simp [hne]

/-- Witness for C9: updating the only cart row (id 1) to quantity 0 deletes
it and reports success. -/
theorem c9_delete_branch_witness :
    ∃ items', update_item
        [{ id := 1, productId := 2, variantId := none, quantity := 5 }]
        (some 1) 0 = .ok items' ∧
      (∀ it ∈ items', it.id ≠ 1) ∧
      (∀ it ∈ [(⟨1, 2, none, 5⟩ : CartItem)], it.id ≠ 1 → it ∈ items') :=
  (c9_update_item_semantics
      [{ id := 1, productId := 2, variantId := none, quantity := 5 }] 1 0).2.1
    ⟨1, 2, none, 5⟩ (List.mem_singleton.mpr rfl) rfl (by norm_num)

end Apple
